import Mathlib

/-!
Shallow embedding of the CRM-lead WhatsApp client
(`src/walue_whatsapp_client/public/js/crm_lead.js`).

Each UI flow in the source is a chain of asynchronous callbacks.  We embed
every flow as a pure function from its inputs — the backend responses the
callbacks would receive and the choices the user makes — to the list of
observable actions the flow performs, in the order the code performs them.
Remote calls, prompts, notifications, dialog operations and timer operations
are constructors of one `Action` type.  An `Option` response models the
`r.message` field of a delivered response: `none` is a delivered response
whose `message` is null or absent, while undelivered callbacks (transport
errors) are modelled by separate constructors where a claim needs them.
-/

namespace WalueWhatsapp

/-- Permission status returned by `api.calls.check_permission` and read by the
`initiate_whatsapp_call` callback: the two gating flags and the user-facing
message (JS truthiness of the flags is modelled as `Bool`). -/
structure PermissionStatus where
  can_call : Bool
  can_request : Bool
  message : String
  deriving DecidableEq

/-- Response of `api.calls.initiate`, read by the `start_call` callback. -/
structure CallResp where
  success : Bool
  call_log_id : String
  error : String
  deriving DecidableEq

/-- Response of `api.calls.request_permission`, read by
`request_call_permission`. -/
structure ReqResp where
  success : Bool
  error : String
  deriving DecidableEq

/-- Response of `api.calls.end`, read by the `end_call` callback. -/
structure EndCallResp where
  success : Bool
  duration_seconds : Nat
  deriving DecidableEq

/-- Response of `api.messages.send_template` and `api.messages.send_text`,
read by `handle_send_response`. -/
structure SendResp where
  success : Bool
  error : String
  deriving DecidableEq

/-- Response of `api.messages.sync_templates`, read by the sync-button
callback. -/
structure SyncResp where
  success : Bool
  synced_count : Nat
  error : String
  deriving DecidableEq

/-- Conversation-window status returned by
`api.messages.check_conversation_window`. -/
structure ConversationWindowStatus where
  in_window : Bool
  deriving DecidableEq

/-- One entry of a template list: the only field the client reads is
`template_name`. -/
structure TemplateSummary where
  template_name : String
  deriving DecidableEq

/-- Shape of an `api.messages.get_templates` response (`r.message`):
null/absent, a bare array, or an object carrying a `success` flag and an
optional `templates` field.  `templates = none` models an absent (falsy)
field; `templates = some ts` models a present array, which in JS is truthy
even when empty. Responses that are neither arrays nor carry truthy
`success`/`templates` fields behave exactly like `obj false none`. -/
inductive TemplatesResponse where
  | null
  | list (ts : List TemplateSummary)
  | obj (success : Bool) (templates : Option (List TemplateSummary))
  deriving DecidableEq

/-- Observable actions of the client flows, one constructor per remote call or
UI effect in `crm_lead.js`. -/
inductive Action where
  | remoteCheckPermission (lead : String)
  | remoteRequestPermission (lead : String)
  | remoteInitiateCall (lead : String)
  | remoteEndCall (callLogId : String) (notes : String)
  | remoteSendTemplate (lead : String) (templateName : String)
  | remoteSendText (lead : String) (text : String)
  | remoteSyncTemplates
  | remoteGetTemplates
  | showConfirm (msg : String)
  | showMsgprint (title : String) (msg : String)
  | showAlert (msg : String)
  | showCallWidget (callLogId : String)
  | hideDialog
  | reloadDoc
  | disableSyncBtn
  | enableSyncBtn
  | setTemplateOptions (opts : String)
  | clearTimer
  deriving DecidableEq

/-- Remote calls that mutate backend state (permission request, call
initiate/end, sends, template sync); the pure reads
(`check_permission`, `get_templates`) are not mutations. -/
def Action.isRemoteMutation : Action → Bool
  | .remoteRequestPermission _ => true
  | .remoteInitiateCall _ => true
  | .remoteEndCall _ _ => true
  | .remoteSendTemplate _ _ => true
  | .remoteSendText _ _ => true
  | .remoteSyncTemplates => true
  | _ => false

/-- User-visible notices: confirmation prompts, message boxes and transient
alerts. -/
def Action.isNotice : Action → Bool
  | .showConfirm _ => true
  | .showMsgprint _ _ => true
  | .showAlert _ => true
  | _ => false

/-- Embedding of `request_call_permission(frm)` (crm_lead.js lines 89 to 111):
issue the remote `request_permission` call, then in the callback either show
the success alert and reload, or show the error message box
(`r.message ? r.message.error : "Failed to send request"`). -/
def request_call_permission (lead : String) (r : Option ReqResp) : List Action :=
  Action.remoteRequestPermission lead ::
    match r with
    | some m =>
      if m.success then
        [Action.showAlert "Permission request sent. You will be notified when approved.",
         Action.reloadDoc]
      else
        [Action.showMsgprint "Error" m.error]
    | none => [Action.showMsgprint "Error" "Failed to send request"]

/-- Embedding of `start_call(frm)` (crm_lead.js lines 113 to 131): issue the
remote `initiate` call, then in the callback either open the call widget or
show the failure message box. -/
def start_call (lead : String) (r : Option CallResp) : List Action :=
  Action.remoteInitiateCall lead ::
    match r with
    | some m =>
      if m.success then [Action.showCallWidget m.call_log_id]
      else [Action.showMsgprint "Call Failed" m.error]
    | none => [Action.showMsgprint "Call Failed" "Could not initiate call"]

/-- Embedding of `initiate_whatsapp_call(frm)` (crm_lead.js lines 56 to 87):
check permission, then branch on the returned status.  `userConfirms` is the
outcome of the `frappe.confirm` prompt on the `can_request` branch; the
responses of the continuation calls are passed explicitly. -/
def initiate_whatsapp_call (lead : String) (perm : Option PermissionStatus)
    (userConfirms : Bool) (callResp : Option CallResp) (reqResp : Option ReqResp) :
    List Action :=
  Action.remoteCheckPermission lead ::
    match perm with
    | none => []
    | some st =>
      if st.can_call then
        start_call lead callResp
      else if st.can_request then
        Action.showConfirm
            (st.message ++ "<br><br>Would you like to send a permission request?") ::
          (if userConfirms then request_call_permission lead reqResp else [])
      else
        [Action.showMsgprint "Cannot Call" st.message]

/-- Alert text built by the `end_call` success branch (crm_lead.js lines 225
to 231): minutes are `Math.floor(duration / 60)`, seconds `duration % 60`. -/
def durationAlert (d : Nat) : String :=
  "Call ended. Duration: " ++ toString (d / 60) ++ "m " ++ toString (d % 60) ++ "s"

/-- Embedding of `end_call(frm, call_log_id, dialog)` (crm_lead.js lines 210
to 238): clear the timer interval, issue the remote `end` call; the callback
hides the dialog and, only on `success`, shows the duration alert and reloads
— the failure branch does nothing. -/
def end_call (callLogId : String) (notes : String) (r : Option EndCallResp) :
    List Action :=
  Action.clearTimer :: Action.remoteEndCall callLogId notes :: Action.hideDialog ::
    match r with
    | some m =>
      if m.success then
        [Action.showAlert (durationAlert m.duration_seconds), Action.reloadDoc]
      else []
    | none => []

/-- Normalization of the initial `get_templates` response in
`create_message_dialog` (crm_lead.js lines 256 to 265): a bare array is taken
as-is; an object is accepted only when both `success` and `templates` are
truthy; everything else yields the empty list. -/
def normalize_templates : TemplatesResponse → List TemplateSummary
  | .null => []
  | .list ts => ts
  | .obj s t =>
    if s then
      match t with
      | some ts => ts
      | none => []
    else []

/-- Normalization of the post-sync refresh `get_templates` response
(crm_lead.js lines 350 to 354): only `r2.message && r2.message.templates` is
checked, so a bare array (which has no `templates` field) yields the empty
list, while any object with a present `templates` array is accepted
regardless of `success`. -/
def refresh_templates : TemplatesResponse → List TemplateSummary
  | .null => []
  | .list _ => []
  | .obj _ t =>
    match t with
    | some ts => ts
    | none => []

/-- Options string of the `message_type` Select field (crm_lead.js lines 272
to 274): free text is offered only inside the conversation window. -/
def message_type_options (w : ConversationWindowStatus) : String :=
  if w.in_window then "Template\nText Message" else "Template"

/-- Values the `send_message` function reads from the compose dialog; an
unset value is the empty string.  The dialog passed to `send_message` carries
no conversation-window information. -/
structure ComposeDialogState where
  message_type : String
  template_name : String
  text_message : String
  deriving DecidableEq

/-- Embedding of `handle_send_response(frm, response)` (crm_lead.js lines 420
to 434). -/
def handle_send_response (r : Option SendResp) : List Action :=
  match r with
  | some m =>
    if m.success then [Action.showAlert "Message sent successfully", Action.reloadDoc]
    else [Action.showMsgprint "Failed" m.error]
  | none => [Action.showMsgprint "Failed" "Could not send message"]

/-- Embedding of `send_message(frm, dialog)` (crm_lead.js lines 372 to 418):
branch on the dialog value `message_type`; an empty template name or empty
text is rejected locally, otherwise the corresponding remote send is issued
and its callback hides the dialog and handles the response. -/
def send_message (lead : String) (d : ComposeDialogState) (resp : Option SendResp) :
    List Action :=
  if d.message_type = "Template" then
    if d.template_name = "" then
      [Action.showMsgprint "" "Please select a template"]
    else
      Action.remoteSendTemplate lead d.template_name :: Action.hideDialog ::
        handle_send_response resp
  else
    if d.text_message = "" then
      [Action.showMsgprint "" "Please enter a message"]
    else
      Action.remoteSendText lead d.text_message :: Action.hideDialog ::
        handle_send_response resp

/-- Options string built from a template list, as in
`templates.map(t => t.template_name).join("\n")`. -/
def joinTemplateNames (ts : List TemplateSummary) : String :=
  String.intercalate "\n" (ts.map (fun t => t.template_name))

/-- Fate of the `sync_templates` request issued by the sync-button click
handler: either its callback runs with the given `r.message` (and, on the
success branch, the refresh `get_templates` callback runs with
`refreshResp`), or the transport fails and no callback ever runs. -/
inductive SyncDelivery where
  | delivered (r : Option SyncResp) (refreshResp : TemplatesResponse)
  | transportError
  deriving DecidableEq

/-- Embedding of the sync-button click handler (crm_lead.js lines 327 to
367): disable the button, issue the remote sync; the callback — when it runs
— re-enables the button first, then either shows the synced-count alert and
refreshes the template options through a second `get_templates` call, or
shows the failure alert.  On a transport error the callback never runs, so
nothing after the remote call happens. -/
def sync_click (d : SyncDelivery) : List Action :=
  Action.disableSyncBtn :: Action.remoteSyncTemplates ::
    match d with
    | .transportError => []
    | .delivered r refreshResp =>
      Action.enableSyncBtn ::
        match r with
        | some m =>
          if m.success then
            [Action.showAlert ("Synced " ++ toString m.synced_count ++ " templates"),
             Action.remoteGetTemplates,
             Action.setTemplateOptions (joinTemplateNames (refresh_templates refreshResp))]
          else [Action.showAlert m.error]
        | none => [Action.showAlert "Sync failed"]

/-- Ways the call widget closes.  The primary End Call button runs
`end_call`; dismissing the dialog (close icon or Escape) runs no handler from
crm_lead.js — the Dialog registers no on-hide hook (lines 133 to 175). -/
inductive CallWidgetExit where
  | endCallButton (r : Option EndCallResp)
  | dismissal
  deriving DecidableEq

/-- Actions crm_lead.js performs on each call-widget exit path. -/
def call_widget_exit (callLogId : String) (notes : String) :
    CallWidgetExit → List Action
  | .endCallButton r => end_call callLogId notes r
  | .dismissal => []

/-- C1: whenever `check_permission` returns a status with `can_call = true`,
`initiate_whatsapp_call` proceeds directly to `start_call` for the same lead:
the action right after the permission check is the remote `initiate` call for
that lead, and no confirmation prompt or notice of any kind precedes it. -/
theorem C1_can_call_starts_call_unprompted (lead : String) (st : PermissionStatus)
    (conf : Bool) (cr : Option CallResp) (rr : Option ReqResp)
    (h : st.can_call = true) :
    initiate_whatsapp_call lead (some st) conf cr rr =
      Action.remoteCheckPermission lead :: start_call lead cr ∧
    (start_call lead cr).head? = some (Action.remoteInitiateCall lead) ∧
    ∀ m, Action.showConfirm m ∉ initiate_whatsapp_call lead (some st) conf cr rr := by
  refine ⟨by simp [initiate_whatsapp_call, h], by simp [start_call], ?_⟩
  intro m
  rcases cr with - | ⟨s, c, e⟩
  · simp [initiate_whatsapp_call, h, start_call]
  · cases s <;> simp [initiate_whatsapp_call, h, start_call]

/-- Witness for C1 at a concrete granted status and successful call. -/
theorem C1_witness :
    (PermissionStatus.mk true false "ok").can_call = true ∧
    (initiate_whatsapp_call "LEAD-1" (some (PermissionStatus.mk true false "ok"))
        false (some (CallResp.mk true "CL-7" "")) none =
      Action.remoteCheckPermission "LEAD-1" ::
        start_call "LEAD-1" (some (CallResp.mk true "CL-7" "")) ∧
    (start_call "LEAD-1" (some (CallResp.mk true "CL-7" ""))).head? =
      some (Action.remoteInitiateCall "LEAD-1") ∧
    ∀ m, Action.showConfirm m ∉
      initiate_whatsapp_call "LEAD-1" (some (PermissionStatus.mk true false "ok"))
        false (some (CallResp.mk true "CL-7" "")) none) :=
  ⟨rfl, C1_can_call_starts_call_unprompted "LEAD-1" (PermissionStatus.mk true false "ok")
    false (some (CallResp.mk true "CL-7" "")) none rfl⟩

/-- C4: with `can_call = false` and `can_request = true`, the trace is exactly
the permission check, then the confirmation prompt showing the status message,
and only then — and only if the user confirmed — the `request_permission`
flow; when confirmation is declined `request_permission` is never called. -/
theorem C4_request_gated_by_confirmation (lead : String) (st : PermissionStatus)
    (conf : Bool) (cr : Option CallResp) (rr : Option ReqResp)
    (h1 : st.can_call = false) (h2 : st.can_request = true) :
    initiate_whatsapp_call lead (some st) conf cr rr =
      Action.remoteCheckPermission lead ::
      Action.showConfirm
          (st.message ++ "<br><br>Would you like to send a permission request?") ::
        (if conf then request_call_permission lead rr else []) ∧
    (conf = false →
      Action.remoteRequestPermission lead ∉
        initiate_whatsapp_call lead (some st) conf cr rr) := by
  refine ⟨by simp [initiate_whatsapp_call, h1, h2], ?_⟩
  rintro rfl
  simp [initiate_whatsapp_call, h1, h2]

/-- Witness for C4 at a concrete requestable status with declined
confirmation. -/
theorem C4_witness :
    (PermissionStatus.mk false true "Permission expired").can_call = false ∧
    (PermissionStatus.mk false true "Permission expired").can_request = true ∧
    (initiate_whatsapp_call "LEAD-1"
        (some (PermissionStatus.mk false true "Permission expired")) false none none =
      Action.remoteCheckPermission "LEAD-1" ::
      Action.showConfirm
          ("Permission expired" ++ "<br><br>Would you like to send a permission request?") ::
        (if false then request_call_permission "LEAD-1" none else []) ∧
    (false = false →
      Action.remoteRequestPermission "LEAD-1" ∉
        initiate_whatsapp_call "LEAD-1"
          (some (PermissionStatus.mk false true "Permission expired")) false none none)) :=
  ⟨rfl, rfl, C4_request_gated_by_confirmation "LEAD-1"
    (PermissionStatus.mk false true "Permission expired") false none none rfl rfl⟩

/-- C5: with both `can_call` and `can_request` false, the trace is exactly
the (read-only) permission check followed by the blocking message box, and no
action in it is a remote mutation. -/
theorem C5_blocked_status_no_mutation (lead : String) (st : PermissionStatus)
    (conf : Bool) (cr : Option CallResp) (rr : Option ReqResp)
    (h1 : st.can_call = false) (h2 : st.can_request = false) :
    initiate_whatsapp_call lead (some st) conf cr rr =
      [Action.remoteCheckPermission lead, Action.showMsgprint "Cannot Call" st.message] ∧
    ∀ a ∈ initiate_whatsapp_call lead (some st) conf cr rr,
      a.isRemoteMutation = false := by
  refine ⟨by simp [initiate_whatsapp_call, h1, h2], ?_⟩
  intro a ha
  simp [initiate_whatsapp_call, h1, h2] at ha
  rcases ha with rfl | rfl <;> rfl

/-- Witness for C5 at a concrete fully blocked status. -/
theorem C5_witness :
    (PermissionStatus.mk false false "Lead opted out").can_call = false ∧
    (PermissionStatus.mk false false "Lead opted out").can_request = false ∧
    (initiate_whatsapp_call "LEAD-1"
        (some (PermissionStatus.mk false false "Lead opted out")) true none none =
      [Action.remoteCheckPermission "LEAD-1",
       Action.showMsgprint "Cannot Call" "Lead opted out"] ∧
    ∀ a ∈ initiate_whatsapp_call "LEAD-1"
        (some (PermissionStatus.mk false false "Lead opted out")) true none none,
      a.isRemoteMutation = false) :=
  ⟨rfl, rfl, C5_blocked_status_no_mutation "LEAD-1"
    (PermissionStatus.mk false false "Lead opted out") true none none rfl rfl⟩

/-- C3: the initial-load normalization maps a bare array and a wrapped
`success=true` object carrying the same entries to the same list, and maps a
null response, a `success=false` object and an object without a `templates`
field to the empty list. -/
theorem C3_normalize_both_shapes (ts : List TemplateSummary)
    (t : Option (List TemplateSummary)) :
    normalize_templates (TemplatesResponse.list ts) = ts ∧
    normalize_templates (TemplatesResponse.obj true (some ts)) = ts ∧
    normalize_templates TemplatesResponse.null = [] ∧
    normalize_templates (TemplatesResponse.obj false t) = [] ∧
    normalize_templates (TemplatesResponse.obj true none) = [] :=
  ⟨rfl, rfl, rfl, rfl, rfl⟩

/-- C6: on a successful `end` response with integer duration `d`, the trace
ends with the duration alert reporting `d / 60` minutes and `d % 60`
seconds, and `d = 125` is rendered as "2m 5s". -/
theorem C6_duration_report (c n : String) (d : Nat) :
    end_call c n (some (EndCallResp.mk true d)) =
      [Action.clearTimer, Action.remoteEndCall c n, Action.hideDialog,
       Action.showAlert
         ("Call ended. Duration: " ++ toString (d / 60) ++ "m " ++
           toString (d % 60) ++ "s"),
       Action.reloadDoc] ∧
    durationAlert 125 = "Call ended. Duration: 2m 5s" :=
  ⟨rfl, rfl⟩

/-- C10: the post-sync refresh normalization accepts only the wrapped object
shape: every bare-array response refreshes to the empty list — unlike the
initial load, which keeps the same array — while an object with a `templates`
array is accepted, so the options string set after a successful sync over a
bare-array refresh response is empty. -/
theorem C10_refresh_rejects_bare_list (ts : List TemplateSummary) (s : Bool)
    (cnt : Nat) (err : String) :
    refresh_templates (TemplatesResponse.list ts) = [] ∧
    refresh_templates (TemplatesResponse.obj s (some ts)) = ts ∧
    normalize_templates (TemplatesResponse.list ts) = ts ∧
    Action.setTemplateOptions (joinTemplateNames []) ∈
      sync_click (SyncDelivery.delivered (some (SyncResp.mk true cnt err))
        (TemplatesResponse.list ts)) := by
  refine ⟨rfl, rfl, rfl, ?_⟩
  simp [sync_click, refresh_templates]

/-- C2 counterexample: with the conversation window closed, a directly
attempted text send with non-empty text is not rejected by any local check —
`send_message` issues the remote `send_text` call. -/
theorem C2_counterexample :
    (ConversationWindowStatus.mk false).in_window = false ∧
    Action.remoteSendText "LEAD-1" "hi" ∈
      send_message "LEAD-1" (ComposeDialogState.mk "Text Message" "" "hi")
        (some (SendResp.mk true "")) := by
  exact ⟨rfl, by decide⟩

/-- C2 amended: `send_message` consults no conversation-window status — the
dialog state it reads has none.  With `in_window = false` the dialog offers
only the Template message type, and a directly attempted text send is
rejected locally only when the text is empty; with non-empty text the remote
`send_text` call is issued. -/
theorem C2_text_send_no_window_guard (lead tn txt : String)
    (resp : Option SendResp) (h : txt ≠ "") :
    message_type_options (ConversationWindowStatus.mk false) = "Template" ∧
    send_message lead (ComposeDialogState.mk "Text Message" tn "") resp =
      [Action.showMsgprint "" "Please enter a message"] ∧
    Action.remoteSendText lead txt ∈
      send_message lead (ComposeDialogState.mk "Text Message" tn txt) resp := by
  refine ⟨rfl, ?_, ?_⟩
  · simp [send_message]
  · simp [send_message, h]

/-- Witness for the amended C2 at concrete dialog values. -/
theorem C2_witness :
    ("hello" : String) ≠ "" ∧
    (message_type_options (ConversationWindowStatus.mk false) = "Template" ∧
    send_message "LEAD-1" (ComposeDialogState.mk "Text Message" "" "") none =
      [Action.showMsgprint "" "Please enter a message"] ∧
    Action.remoteSendText "LEAD-1" "hello" ∈
      send_message "LEAD-1" (ComposeDialogState.mk "Text Message" "" "hello") none) :=
  ⟨by decide, C2_text_send_no_window_guard "LEAD-1" "" "hello" none (by decide)⟩

/-- C7 counterexample: on a transport error the sync callback never runs, so
the trace contains no re-enable of the sync trigger control. -/
theorem C7_counterexample :
    Action.enableSyncBtn ∉ sync_click SyncDelivery.transportError := by
  decide

/-- C7 amended: every sync click disables the trigger control first, and the
control is re-enabled as the first step of the response callback — on backend
success, backend-reported failure and a null response alike; when the
transport never invokes the callback, no re-enable occurs and the control
stays disabled. -/
theorem C7_sync_disable_reenable (r : Option SyncResp) (r2 : TemplatesResponse)
    (d : SyncDelivery) :
    (sync_click d).head? = some Action.disableSyncBtn ∧
    (sync_click (SyncDelivery.delivered r r2)).get? 2 = some Action.enableSyncBtn ∧
    Action.enableSyncBtn ∈ sync_click (SyncDelivery.delivered r r2) ∧
    Action.enableSyncBtn ∉ sync_click SyncDelivery.transportError := by
  refine ⟨?_, ?_, ?_, by decide⟩
  · cases d <;> rfl
  · rfl
  · simp [sync_click]

/-- C8 counterexample: an `end_call` whose response has `success = false`, or
whose response message is null, produces no user-visible notice at all — the
trace is just the timer clear, the remote call and the dialog hide. -/
theorem C8_counterexample :
    (end_call "CL-7" "note" (some (EndCallResp.mk false 0))).filter
        Action.isNotice = [] ∧
    (end_call "CL-7" "note" none).filter Action.isNotice = [] :=
  ⟨rfl, rfl⟩

/-- C8 amended: failures of the permission request, the call initiation, the
message send and the template sync each surface a user-visible notice — both
for a `success = false` response and for a null response message — but a
failed `end_call` hides the call widget silently, with no failure notice on
either failure shape. -/
theorem C8_failures_notified_except_end_call (lead err c n : String)
    (d cnt : Nat) (r2 : TemplatesResponse) :
    Action.showMsgprint "Error" err ∈
      request_call_permission lead (some (ReqResp.mk false err)) ∧
    Action.showMsgprint "Error" "Failed to send request" ∈
      request_call_permission lead none ∧
    Action.showMsgprint "Call Failed" err ∈
      start_call lead (some (CallResp.mk false c err)) ∧
    Action.showMsgprint "Call Failed" "Could not initiate call" ∈
      start_call lead none ∧
    Action.showMsgprint "Failed" err ∈
      handle_send_response (some (SendResp.mk false err)) ∧
    Action.showMsgprint "Failed" "Could not send message" ∈
      handle_send_response none ∧
    Action.showAlert err ∈
      sync_click (SyncDelivery.delivered (some (SyncResp.mk false cnt err)) r2) ∧
    Action.showAlert "Sync failed" ∈
      sync_click (SyncDelivery.delivered none r2) ∧
    (end_call c n (some (EndCallResp.mk false d))).filter Action.isNotice = [] ∧
    (end_call c n none).filter Action.isNotice = [] := by
  refine ⟨?_, ?_, ?_, ?_, ?_, ?_, ?_, ?_, rfl, rfl⟩ <;>
    simp [request_call_permission, start_call, handle_send_response, sync_click]

/-- C9 counterexample: dismissing the call widget (close icon or Escape)
runs no handler, so the timer interval is never cleared on that exit path. -/
theorem C9_counterexample :
    Action.clearTimer ∉ call_widget_exit "CL-7" "note" CallWidgetExit.dismissal := by
  decide

/-- C9 amended: the timer interval is cleared first on the End Call exit
path, regardless of the backend outcome — `clearInterval` runs before the
remote call — but dialog dismissal runs nothing from this file, so the
interval is not cleared there and keeps ticking. -/
theorem C9_timer_cleared_only_on_end (c n : String) (r : Option EndCallResp) :
    (call_widget_exit c n (CallWidgetExit.endCallButton r)).head? =
      some Action.clearTimer ∧
    call_widget_exit c n CallWidgetExit.dismissal = [] :=
  ⟨rfl, rfl⟩

end WalueWhatsapp
